import Mathlib

/-!
Verification of the Context7 MCP server (`src/index.ts`): a shallow
embedding of its session-gated two-step documentation workflow, the
call telemetry, the watchdog, and the HTTP port-fallback loop,
together with proofs of the spec's testable properties.
-/

/-- Mirrors `DEFAULT_MINIMUM_TOKENS = 10000`. -/
def DEFAULT_MINIMUM_TOKENS : Int := 10000

/-- Mirrors the zod `tokens` transform:
`(val) => (val < DEFAULT_MINIMUM_TOKENS ? DEFAULT_MINIMUM_TOKENS : val)`. -/
def clampTokens (val : Int) : Int :=
  if val < DEFAULT_MINIMUM_TOKENS then DEFAULT_MINIMUM_TOKENS else val

/-- Mirrors `interface SessionState` (the `sessionId` field of the source is
never written or read and is omitted). Timestamps are `Date.now()`
milliseconds, embedded as `Nat`. -/
structure SessionState where
  resolveLibraryIdCalled : Bool
  getLibraryDocsCalled : Bool
  lastResolveLibraryIdTime : Option Nat
  deriving Repr, DecidableEq

/-- The zero-valued state installed by `getSessionState` for a fresh key. -/
def SessionState.initial : SessionState :=
  { resolveLibraryIdCalled := false
    getLibraryDocsCalled := false
    lastResolveLibraryIdTime := none }

/-- Mirrors an entry of `callHistory` (a `CallRecord`): timestamp, tool name,
optional query / library id, masked client ip, success flag. -/
structure CallRecord where
  timestamp : Nat
  tool : String
  query : Option String
  libraryId : Option String
  clientIp : Option String
  success : Bool
  deriving Repr, DecidableEq

/-- Mirrors `clientIp.substring(0, 8) + '...'` (IP masking in `logToolCall`). -/
def maskIp (ip : String) : String := ip.take 8 ++ "..."

/-- The process-wide telemetry: `totalCallCount`, the two entries of
`toolCallStats`, and `callHistory`. -/
structure Telemetry where
  totalCallCount : Nat
  statsResolveLibraryId : Nat
  statsGetLibraryDocs : Nat
  callHistory : List CallRecord
  deriving Repr, DecidableEq

/-- The initial global telemetry (all counters 0, empty history). -/
def Telemetry.initial : Telemetry :=
  { totalCallCount := 0
    statsResolveLibraryId := 0
    statsGetLibraryDocs := 0
    callHistory := [] }

/-- `callHistory.slice(-100)` applied when the length exceeds 100:
keeps the last 100 entries. -/
def truncateHistory (h : List CallRecord) : List CallRecord :=
  if h.length > 100 then h.drop (h.length - 100) else h

/-- Mirrors `logToolCall(tool, query?, libraryId?, clientIp?, success = true)`:
increments `totalCallCount` and the tool's entry of `toolCallStats`,
appends a record with the masked ip, and truncates the history to the
last 100 entries. -/
def logToolCall (t : Telemetry) (now : Nat) (tool : String)
    (query libraryId clientIp : Option String) (success : Bool) : Telemetry :=
  let entry : CallRecord :=
    { timestamp := now
      tool := tool
      query := query
      libraryId := libraryId
      clientIp := clientIp.map maskIp
      success := success }
  { totalCallCount := t.totalCallCount + 1
    statsResolveLibraryId :=
      if tool = "resolve-library-id" then t.statsResolveLibraryId + 1
      else t.statsResolveLibraryId
    statsGetLibraryDocs :=
      if tool = "get-library-docs" then t.statsGetLibraryDocs + 1
      else t.statsGetLibraryDocs
    callHistory := truncateHistory (t.callHistory ++ [entry]) }

/-- Whether `pattern` occurs contiguously in a character sequence: the
substring test of the source's regexes, by structural recursion. -/
def listIsInfix (pattern : List Char) : List Char → Bool
  | [] => pattern.isEmpty
  | c :: tl => pattern.isPrefixOf (c :: tl) || listIsInfix pattern tl

/-- Mirrors `containsErrorMessage`: each `/pattern/i` regex of the source is a
case-insensitive substring test, embedded as an infix test of the pattern
on the lower-cased character sequence of the query. -/
def containsErrorMessage (query : String) : Bool :=
  let q := query.data.map Char.toLower
  ["error", "exception", "traceback", "failed", "cannot import",
   "module not found", "no module named", "import error", "syntax error",
   "runtime error", "attribute error", "type error"].any
    (fun pattern => listIsInfix pattern.data q)

/-- Mirrors `SearchResponse` of `lib/types.js` at the granularity the handler
inspects it: a `results` list (entries abstracted to their ids) and an
optional `error` string. -/
structure SearchResponse where
  results : List String
  error : Option String

/-- Mirrors `context7CompatibleLibraryID.startsWith('/')`: a one-character
pattern, so the test is whether the first character is a slash (written as
a match on `data` so that concrete instances evaluate by `decide`;
`String.startsWith` in this Lean is defined by well-founded recursion and
does not reduce). -/
def startsWithSlash (s : String) : Bool :=
  match s.data with
  | '/' :: _ => true
  | _ => false

/-- The guidance text of the `get-library-docs` gate-rejected branch. -/
def docsGateGuidanceText : String :=
  "Sorry, I can't search for the relevant library docs. You must call 'resolve-library-id' first to get a valid Context7-compatible library ID, unless you provide an explicit library ID in the format '/org/project'."

/-- The text returned when `fetchLibraryDocumentation` yields nothing. -/
def docsNotFoundText : String :=
  "Documentation not found or not finalized for this library. This might have happened because you used an invalid Context7-compatible library ID. To get a valid Context7-compatible library ID, use the 'resolve-library-id' with the package name you wish to retrieve documentation for."

/-- The error text of the empty-results branch when the query looked like an
error message. -/
def resolveErrorAnalysisText : String :=
  "Sorry, I can't search for the relevant library docs. No matching libraries found for the error analysis. Please try with a more specific library name or check the error message for library names."

/-- The fallback error text of the empty-results branch. -/
def resolveFallbackErrorText : String :=
  "Failed to retrieve library documentation data from Context7"

/-- The fixed prefix of the success response of `resolve-library-id`
(everything of the template literal before the interpolated results). -/
def resolveSuccessHeader : String :=
  "Available Libraries (top matches):\n\nEach result includes:\n- Library ID: Context7-compatible identifier (format: /org/project)\n- Name: Library or package name\n- Description: Short summary\n- Code Snippets: Number of available code examples\n- Trust Score: Authority indicator\n- Versions: List of versions if available. Use one of those versions if and only if the user explicitly provides a version in their query.\n\nFor best results, select libraries based on name match, trust score, snippet coverage, and relevance to your use case.\n\n----------\n\n"

/-- What a `resolve-library-id` invocation produces: the updated session
state and telemetry, whether the call is a logical success (non-empty
results), and the response text. -/
structure ResolveCallOutcome where
  state : SessionState
  telemetry : Telemetry
  logicalSuccess : Bool
  response : String

/-- Mirrors the `resolve-library-id` handler: marks the session resolved
(`resolveLibraryIdCalled := true`, `getLibraryDocsCalled := false`, fresh
timestamp), logs the call, delegates to `searchLibraries`, and on empty
results logs a failure and answers with an error text (JS truthiness: an
empty `error` string also falls back to the fixed text). -/
def resolveLibraryIdHandler (searchLibraries : String → SearchResponse)
    (formatSearchResults : SearchResponse → String)
    (sessionState : SessionState) (telemetry : Telemetry) (now : Nat)
    (libraryName : String) (clientIp : Option String) : ResolveCallOutcome :=
  let isErrorAnalysis := containsErrorMessage libraryName
  let st : SessionState :=
    { sessionState with
      resolveLibraryIdCalled := true
      getLibraryDocsCalled := false
      lastResolveLibraryIdTime := some now }
  let tel := logToolCall telemetry now "resolve-library-id" (some libraryName) none clientIp true
  let searchResponse := searchLibraries libraryName
  if searchResponse.results.isEmpty then
    let tel2 := logToolCall tel now "resolve-library-id" (some libraryName) none clientIp false
    let errorMessage :=
      if isErrorAnalysis then resolveErrorAnalysisText
      else if searchResponse.error.getD "" = "" then resolveFallbackErrorText
      else searchResponse.error.getD ""
    { state := st, telemetry := tel2, logicalSuccess := false, response := errorMessage }
  else
    { state := st, telemetry := tel, logicalSuccess := true,
      response := resolveSuccessHeader ++ formatSearchResults searchResponse }

/-- What a `get-library-docs` invocation produces: updated session state and
telemetry, the backend invocation — `none` when the fetch collaborator was
never called, otherwise the `(libraryId, tokens, topic)` it received — and
the response text. -/
structure DocsCallOutcome where
  state : SessionState
  telemetry : Telemetry
  fetchCall : Option (String × Int × String)
  response : String

/-- The `tokens` value the handler sees: the zod pipeline clamps a supplied
value, the destructuring default supplies `DEFAULT_MINIMUM_TOKENS`. -/
def effectiveTokens (tokensArg : Option Int) : Int :=
  match tokensArg with
  | some v => clampTokens v
  | none => DEFAULT_MINIMUM_TOKENS

/-- The `topic` value the handler sees: the destructuring default is `""`. -/
def effectiveTopic (topicArg : Option String) : String := topicArg.getD ""

/-- Mirrors the `get-library-docs` handler. A session with
`resolveLibraryIdCalled = false` and a library id that does not start with
a slash is rejected with guidance, before any state update, logging or
fetch. Otherwise `getLibraryDocsCalled` is set, the call is logged, and
the fetch collaborator is invoked with the effective tokens and topic; a
null/empty fetch result (JS falsy) is logged as a failure and answered
with the not-found text. -/
def getLibraryDocsHandler (fetchLibraryDocumentation : String → Int → String → Option String)
    (sessionState : SessionState) (telemetry : Telemetry) (now : Nat)
    (context7CompatibleLibraryID : String) (topicArg : Option String)
    (tokensArg : Option Int) (clientIp : Option String) : DocsCallOutcome :=
  let tokens : Int := effectiveTokens tokensArg
  let topic : String := effectiveTopic topicArg
  if !sessionState.resolveLibraryIdCalled && !startsWithSlash context7CompatibleLibraryID then
    { state := sessionState, telemetry := telemetry, fetchCall := none,
      response := docsGateGuidanceText }
  else
    let st : SessionState := { sessionState with getLibraryDocsCalled := true }
    let loggedTopic := if topic = "" then "general" else topic
    let tel := logToolCall telemetry now "get-library-docs"
      (some loggedTopic) (some context7CompatibleLibraryID) clientIp true
    let fetchDocsResponse := fetchLibraryDocumentation context7CompatibleLibraryID tokens topic
    if fetchDocsResponse.getD "" = "" then
      let tel2 := logToolCall tel now "get-library-docs"
        (some loggedTopic) (some context7CompatibleLibraryID) clientIp false
      { state := st, telemetry := tel2,
        fetchCall := some (context7CompatibleLibraryID, tokens, topic),
        response := docsNotFoundText }
    else
      { state := st, telemetry := tel,
        fetchCall := some (context7CompatibleLibraryID, tokens, topic),
        response := fetchDocsResponse.getD "" }

/-- The watchdog interval: `30000` ms (`setInterval(..., 30000)`). -/
def CHECK_INTERVAL_MS : Nat := 30000

/-- The expiry bound of the watchdog: `timeSinceResolve > 75000`. -/
def RESOLVE_TIMEOUT_MS : Nat := 75000

/-- One tick of the `checkInterval` watchdog on a session: when resolve was
called, docs was not, and more than `RESOLVE_TIMEOUT_MS` ms have passed
since `lastResolveLibraryIdTime` (`Date.now() - (time || 0)`), both flags
are reset and a warning is emitted (the returned `Bool`). JS computes the
elapsed time as a possibly negative number; `Nat` truncation at `0` takes
the same branch of the `> 75000` comparison. -/
def watchdogTick (sessionState : SessionState) (now : Nat) : SessionState × Bool :=
  if sessionState.resolveLibraryIdCalled && !sessionState.getLibraryDocsCalled then
    let timeSinceResolve := now - sessionState.lastResolveLibraryIdTime.getD 0
    if timeSinceResolve > RESOLVE_TIMEOUT_MS then
      ({ sessionState with resolveLibraryIdCalled := false, getLibraryDocsCalled := false }, true)
    else (sessionState, false)
  else (sessionState, false)

/-- The process-wide `sessionStates` map, keyed by client ip or session id. -/
def SessionStore : Type := String → Option SessionState

/-- The map starts empty. -/
def SessionStore.empty : SessionStore := fun _ => none

/-- Mirrors `getSessionState(identifier)`: lookup-or-insert of the
zero-valued state. Returns the state together with the map after the
possible insertion. -/
def getSessionState (store : SessionStore) (identifier : String) :
    SessionState × SessionStore :=
  match store identifier with
  | some s => (s, store)
  | none =>
      (SessionState.initial,
       fun k => if k = identifier then some SessionState.initial else store k)

/-- Writing a session's state back into the map: in the source the handlers
mutate the `SessionState` object held by the map in place. -/
def SessionStore.write (store : SessionStore) (identifier : String)
    (s : SessionState) : SessionStore :=
  fun k => if k = identifier then some s else store k

/-- Mirrors the `transport.onclose` cleanup installed by the `server.connect`
override: `sessionStates.delete(sessionIdentifier)` (the interval it also
clears has no state here). -/
def transportOncloseCleanup (store : SessionStore) (identifier : String) : SessionStore :=
  fun k => if k = identifier then none else store k

/-- Mirrors `getClientIp`: the first entry of the `x-forwarded-for` header
when present, else the socket remote address. -/
def getClientIp (forwardedFor : Option String) (remoteAddress : Option String) :
    Option String :=
  match forwardedFor with
  | some ips => some (((ips.splitOn ",").getD 0 "").trim)
  | none => remoteAddress

/-- Mirrors `const sessionIdentifier = clientIp || 'default'` in
`createServerInstance` (JS: the empty string is falsy). -/
def sessionIdentifierOf (clientIp : Option String) : String :=
  if clientIp.getD "" = "" then "default" else clientIp.getD ""

/-- A tool invocation carried by an inbound request. -/
inductive ToolCall where
  | resolveLibraryId (libraryName : String)
  | getLibraryDocs (context7CompatibleLibraryID : String)
      (topic : Option String) (tokens : Option Int)

/-- The external collaborators a server instance delegates to. -/
structure Backend where
  searchLibraries : String → SearchResponse
  formatSearchResults : SearchResponse → String
  fetchLibraryDocumentation : String → Int → String → Option String

/-- What one `POST /mcp` request leaves behind besides the global state: the
session state the freshly constructed server instance resolved for its
derived key, the state it left there, and the response text. -/
structure RequestOutcome where
  observedState : SessionState
  finalState : SessionState
  response : String

/-- Mirrors the `POST /mcp` branch of `main` in streamable-HTTP mode: a
brand-new server instance is created for the request
(`createServerInstance(clientIp)`), which derives the session identifier,
resolves the session via `getSessionState`, runs the tool handler against
it, and leaves the mutated state in the map. Nothing in this path closes
the per-request transport, so the map entry survives the request. -/
def processMcpRequest (backend : Backend) (store : SessionStore)
    (telemetry : Telemetry) (now : Nat) (clientIp : Option String)
    (call : ToolCall) : SessionStore × Telemetry × RequestOutcome :=
  let sessionIdentifier := sessionIdentifierOf clientIp
  let (sessionState, store1) := getSessionState store sessionIdentifier
  match call with
  | .resolveLibraryId libraryName =>
      let o := resolveLibraryIdHandler backend.searchLibraries
        backend.formatSearchResults sessionState telemetry now libraryName clientIp
      (store1.write sessionIdentifier o.state, o.telemetry,
       { observedState := sessionState, finalState := o.state, response := o.response })
  | .getLibraryDocs id topic tokens =>
      let o := getLibraryDocsHandler backend.fetchLibraryDocumentation
        sessionState telemetry now id topic tokens clientIp
      (store1.write sessionIdentifier o.state, o.telemetry,
       { observedState := sessionState, finalState := o.state, response := o.response })

/-- What one bind attempt of the node http server yields. -/
inductive BindResult where
  | ok
  | addrInUse
  | otherError
  deriving Repr, DecidableEq

/-- How `startServer` ends: listening on some port, or `process.exit(1)`. -/
inductive StartOutcome where
  | listening (port : Nat)
  | exitFailure
  deriving Repr, DecidableEq

/-- Mirrors `startServer(port, maxAttempts = 10)`: on an `EADDRINUSE` bind
error with `port < initialPort + maxAttempts` it retries `port + 1`;
any other error, or an exhausted range, exits with status 1. -/
def startServer (bindPort : Nat → BindResult) (initialPort maxAttempts port : Nat) :
    StartOutcome :=
  match bindPort port with
  | .ok => .listening port
  | .addrInUse =>
      if port < initialPort + maxAttempts then
        startServer bindPort initialPort maxAttempts (port + 1)
      else .exitFailure
  | .otherError => .exitFailure
termination_by initialPort + maxAttempts + 1 - port
decreasing_by omega

/-- When `resolveLibraryIdCalled` holds, the `get-library-docs` gate passes:
the fetch collaborator is invoked and the session state is the input state
with `getLibraryDocsCalled` set, whatever the fetch returns. -/
lemma getLibraryDocsHandler_of_resolved
    (fetch : String → Int → String → Option String) (st : SessionState)
    (tel : Telemetry) (now : Nat) (id : String) (topic : Option String)
    (tokens : Option Int) (ip : Option String)
    (h : st.resolveLibraryIdCalled = true) :
    ((getLibraryDocsHandler fetch st tel now id topic tokens ip).fetchCall).isSome = true ∧
    (getLibraryDocsHandler fetch st tel now id topic tokens ip).state =
      { st with getLibraryDocsCalled := true } := by
  unfold getLibraryDocsHandler
  simp only [h, Bool.not_true, Bool.false_and, Bool.false_eq_true, if_false]
  split <;> simp

/-- C5: the `tokens` transform is a monotone, idempotent clamp with floor
`DEFAULT_MINIMUM_TOKENS`: below the floor it returns the floor, at or above
it is the identity, and applying it twice equals applying it once. -/
theorem tokens_clamp_monotone_idempotent :
    (∀ x y : Int, x ≤ y → clampTokens x ≤ clampTokens y) ∧
    (∀ x : Int, x < DEFAULT_MINIMUM_TOKENS → clampTokens x = DEFAULT_MINIMUM_TOKENS) ∧
    (∀ x : Int, DEFAULT_MINIMUM_TOKENS ≤ x → clampTokens x = x) ∧
    (∀ x : Int, clampTokens (clampTokens x) = clampTokens x) := by
  refine ⟨fun x y h => ?_, fun x h => ?_, fun x h => ?_, fun x => ?_⟩ <;>
    simp only [clampTokens, DEFAULT_MINIMUM_TOKENS] at * <;> split_ifs <;> omega

/-- Witness for C5 at concrete inputs: 3 is clamped to the floor, 20000
passes through, monotonicity and idempotence hold there. -/
theorem tokens_clamp_witness :
    clampTokens 3 ≤ clampTokens 20000 ∧
    clampTokens 3 = DEFAULT_MINIMUM_TOKENS ∧
    clampTokens 20000 = 20000 ∧
    clampTokens (clampTokens 3) = clampTokens 3 :=
  ⟨tokens_clamp_monotone_idempotent.1 3 20000 (by decide),
   tokens_clamp_monotone_idempotent.2.1 3 (by decide),
   tokens_clamp_monotone_idempotent.2.2.1 20000 (by decide),
   tokens_clamp_monotone_idempotent.2.2.2 3⟩

/-- C4: on a watchdog tick, a session with `resolveLibraryIdCalled = true`,
`getLibraryDocsCalled = false` whose elapsed time since the last resolve
exceeds `RESOLVE_TIMEOUT_MS` is reset to both-false with a warning; a
session with `getLibraryDocsCalled = true` is never reset; and the expiry
bound exceeds the check interval. -/
theorem watchdog_reset_spec :
    (∀ (st : SessionState) (now : Nat),
        st.resolveLibraryIdCalled = true → st.getLibraryDocsCalled = false →
        now - st.lastResolveLibraryIdTime.getD 0 > RESOLVE_TIMEOUT_MS →
        watchdogTick st now =
          ({ st with resolveLibraryIdCalled := false, getLibraryDocsCalled := false }, true)) ∧
    (∀ (st : SessionState) (now : Nat),
        st.getLibraryDocsCalled = true → watchdogTick st now = (st, false)) ∧
    RESOLVE_TIMEOUT_MS > CHECK_INTERVAL_MS := by
  refine ⟨fun st now h1 h2 h3 => ?_, fun st now h => ?_, by decide⟩
  · unfold watchdogTick
    simp only [h1, h2, Bool.not_false, Bool.and_self, if_true]
    simp [h3]
  · unfold watchdogTick
    simp [h]

/-- Witness for C4: a session resolved at time 0 and inspected at time
100000 (elapsed 100000 > 75000) is reset with a warning, and a satisfied
session of the same age is untouched. -/
theorem watchdog_reset_witness :
    watchdogTick ⟨true, false, some 0⟩ 100000 = (⟨false, false, some 0⟩, true) ∧
    watchdogTick ⟨true, true, some 0⟩ 100000 = (⟨true, true, some 0⟩, false) :=
  ⟨watchdog_reset_spec.1 ⟨true, false, some 0⟩ 100000 rfl rfl (by decide),
   watchdog_reset_spec.2.1 ⟨true, true, some 0⟩ 100000 rfl⟩

/-- C1: with `resolveLibraryIdCalled = false`, a `get-library-docs` call
whose library id does not start with a slash answers the sequencing
guidance text and never invokes the fetch collaborator; an id starting
with a slash is admitted unconditionally (the fetch is invoked). -/
theorem docs_gate_rejects_nonexplicit_before_resolve :
    (∀ (fetch : String → Int → String → Option String) (st : SessionState)
        (tel : Telemetry) (now : Nat) (id : String) (topic : Option String)
        (tokens : Option Int) (ip : Option String),
        st.resolveLibraryIdCalled = false → startsWithSlash id = false →
        (getLibraryDocsHandler fetch st tel now id topic tokens ip).response =
            docsGateGuidanceText ∧
        (getLibraryDocsHandler fetch st tel now id topic tokens ip).fetchCall = none) ∧
    (∀ (fetch : String → Int → String → Option String) (st : SessionState)
        (tel : Telemetry) (now : Nat) (id : String) (topic : Option String)
        (tokens : Option Int) (ip : Option String),
        startsWithSlash id = true →
        ((getLibraryDocsHandler fetch st tel now id topic tokens ip).fetchCall).isSome = true) := by
  constructor
  · intro fetch st tel now id topic tokens ip h1 h2
    unfold getLibraryDocsHandler
    simp [h1, h2]
  · intro fetch st tel now id topic tokens ip h
    unfold getLibraryDocsHandler
    simp only [h, Bool.not_true, Bool.and_false, Bool.false_eq_true, if_false]
    split <;> simp

/-- Witness for C1: in a fresh session, the non-explicit id
`"react-query"` is rejected without a fetch, while `"/vercel/next.js"`
is admitted. -/
theorem docs_gate_witness :
    ((getLibraryDocsHandler (fun _ _ _ => some "DOCS") SessionState.initial
        Telemetry.initial 0 "react-query" none none none).response =
        docsGateGuidanceText ∧
     (getLibraryDocsHandler (fun _ _ _ => some "DOCS") SessionState.initial
        Telemetry.initial 0 "react-query" none none none).fetchCall = none) ∧
    ((getLibraryDocsHandler (fun _ _ _ => some "DOCS") SessionState.initial
        Telemetry.initial 0 "/vercel/next.js" none none none).fetchCall).isSome = true :=
  ⟨docs_gate_rejects_nonexplicit_before_resolve.1 _ _ _ _ _ _ _ _ rfl (by decide),
   docs_gate_rejects_nonexplicit_before_resolve.2 _ _ _ _ _ _ _ _ (by decide)⟩

/-- C2: with `resolveLibraryIdCalled = true`, every `get-library-docs` call
is admitted, the gate flag is not consumed (`resolveLibraryIdCalled` stays
true) and `getLibraryDocsCalled` is set, whatever the fetch returns
(including an empty or absent result); hence any later `get-library-docs`
call against the resulting state is also admitted. -/
theorem docs_gate_one_shot_enabling :
    ∀ (fetch : String → Int → String → Option String) (st : SessionState)
      (tel : Telemetry) (now : Nat) (id : String) (topic : Option String)
      (tokens : Option Int) (ip : Option String),
      st.resolveLibraryIdCalled = true →
      ((getLibraryDocsHandler fetch st tel now id topic tokens ip).fetchCall).isSome = true ∧
      (getLibraryDocsHandler fetch st tel now id topic tokens ip).state.resolveLibraryIdCalled = true ∧
      (getLibraryDocsHandler fetch st tel now id topic tokens ip).state.getLibraryDocsCalled = true ∧
      (∀ (fetch2 : String → Int → String → Option String) (tel2 : Telemetry)
          (now2 : Nat) (id2 : String) (topic2 : Option String)
          (tokens2 : Option Int) (ip2 : Option String),
        ((getLibraryDocsHandler fetch2
            (getLibraryDocsHandler fetch st tel now id topic tokens ip).state
            tel2 now2 id2 topic2 tokens2 ip2).fetchCall).isSome = true) := by
  intro fetch st tel now id topic tokens ip h
  obtain ⟨hadm, hstate⟩ := getLibraryDocsHandler_of_resolved fetch st tel now id topic tokens ip h
  refine ⟨hadm, by rw [hstate]; exact h, by rw [hstate], ?_⟩
  intro fetch2 tel2 now2 id2 topic2 tokens2 ip2
  exact (getLibraryDocsHandler_of_resolved fetch2 _ tel2 now2 id2 topic2 tokens2 ip2
    (by rw [hstate]; exact h)).1

/-- Witness for C2: in a resolved session, a docs call whose fetch returns
nothing is admitted, keeps the gate enabled, and a second call is admitted
too. -/
theorem docs_gate_one_shot_enabling_witness :
    (((getLibraryDocsHandler (fun _ _ _ => none)
        { resolveLibraryIdCalled := true, getLibraryDocsCalled := false,
          lastResolveLibraryIdTime := some 0 }
        Telemetry.initial 1 "react-query" none none none).fetchCall).isSome = true) ∧
    ((getLibraryDocsHandler (fun _ _ _ => none)
        { resolveLibraryIdCalled := true, getLibraryDocsCalled := false,
          lastResolveLibraryIdTime := some 0 }
        Telemetry.initial 1 "react-query" none none none).state.resolveLibraryIdCalled = true) ∧
    ((getLibraryDocsHandler (fun _ _ _ => none)
        { resolveLibraryIdCalled := true, getLibraryDocsCalled := false,
          lastResolveLibraryIdTime := some 0 }
        Telemetry.initial 1 "react-query" none none none).state.getLibraryDocsCalled = true) ∧
    (∀ (fetch2 : String → Int → String → Option String) (tel2 : Telemetry)
        (now2 : Nat) (id2 : String) (topic2 : Option String)
        (tokens2 : Option Int) (ip2 : Option String),
      ((getLibraryDocsHandler fetch2
          (getLibraryDocsHandler (fun _ _ _ => none)
            { resolveLibraryIdCalled := true, getLibraryDocsCalled := false,
              lastResolveLibraryIdTime := some 0 }
            Telemetry.initial 1 "react-query" none none none).state
          tel2 now2 id2 topic2 tokens2 ip2).fetchCall).isSome = true) :=
  docs_gate_one_shot_enabling (fun _ _ _ => none) _ Telemetry.initial 1 "react-query"
    none none none rfl

/-- The session state left by `resolveLibraryIdHandler` does not depend on
the search outcome: both branches keep the state set before the search. -/
lemma resolveLibraryIdHandler_state (search : String → SearchResponse)
    (fmt : SearchResponse → String) (st : SessionState) (tel : Telemetry)
    (now : Nat) (name : String) (ip : Option String) :
    (resolveLibraryIdHandler search fmt st tel now name ip).state =
      { st with
        resolveLibraryIdCalled := true
        getLibraryDocsCalled := false
        lastResolveLibraryIdTime := some now } := by
  unfold resolveLibraryIdHandler
  dsimp only
  split <;> rfl

/-- C8: every `resolve-library-id` call sets `resolveLibraryIdCalled = true`,
`getLibraryDocsCalled = false` and refreshes the timestamp; on zero search
results it answers with the distinct failure text (error-analysis text,
the collaborator's error, or the fixed fallback) as a logical failure,
with that same gating state — nothing is rolled back. -/
theorem resolve_sets_gating_state :
    ∀ (search : String → SearchResponse) (fmt : SearchResponse → String)
      (st : SessionState) (tel : Telemetry) (now : Nat) (name : String)
      (ip : Option String),
      (resolveLibraryIdHandler search fmt st tel now name ip).state.resolveLibraryIdCalled = true ∧
      (resolveLibraryIdHandler search fmt st tel now name ip).state.getLibraryDocsCalled = false ∧
      (resolveLibraryIdHandler search fmt st tel now name ip).state.lastResolveLibraryIdTime = some now ∧
      ((search name).results.isEmpty = true →
        (resolveLibraryIdHandler search fmt st tel now name ip).logicalSuccess = false ∧
        (resolveLibraryIdHandler search fmt st tel now name ip).response =
          (if containsErrorMessage name then resolveErrorAnalysisText
           else if (search name).error.getD "" = "" then resolveFallbackErrorText
           else (search name).error.getD "")) ∧
      ((search name).results.isEmpty = false →
        (resolveLibraryIdHandler search fmt st tel now name ip).logicalSuccess = true) := by
  intro search fmt st tel now name ip
  refine ⟨?_, ?_, ?_, ?_, ?_⟩
  · rw [resolveLibraryIdHandler_state]
  · rw [resolveLibraryIdHandler_state]
  · rw [resolveLibraryIdHandler_state]
  · intro h
    unfold resolveLibraryIdHandler
    simp [h]
  · intro h
    unfold resolveLibraryIdHandler
    simp [h]

/-- Witness for C8: a search collaborator with no results for `"left-pad"`:
the gating state is set and the call reports the fallback failure text. -/
theorem resolve_sets_gating_state_witness :
    ((resolveLibraryIdHandler (fun _ => ⟨[], none⟩) (fun _ => "") SessionState.initial
        Telemetry.initial 7 "left-pad" none).state.resolveLibraryIdCalled = true) ∧
    ((resolveLibraryIdHandler (fun _ => ⟨[], none⟩) (fun _ => "") SessionState.initial
        Telemetry.initial 7 "left-pad" none).state.getLibraryDocsCalled = false) ∧
    ((resolveLibraryIdHandler (fun _ => ⟨[], none⟩) (fun _ => "") SessionState.initial
        Telemetry.initial 7 "left-pad" none).state.lastResolveLibraryIdTime = some 7) ∧
    ((resolveLibraryIdHandler (fun _ => ⟨[], none⟩) (fun _ => "") SessionState.initial
        Telemetry.initial 7 "left-pad" none).logicalSuccess = false) := by
  have h := resolve_sets_gating_state (fun _ => ⟨[], none⟩) (fun _ => "")
    SessionState.initial Telemetry.initial 7 "left-pad" none
  exact ⟨h.1, h.2.1, h.2.2.1, (h.2.2.2.1 (by decide)).1⟩

/-- C3: in streamable-HTTP mode every request runs against a freshly
constructed handler, but two requests carrying the same client ip derive
the same session key and resolve the same session: the second request
observes exactly the state the first left behind (the `/mcp` request path
never closes its transport, so nothing deletes the entry in between); in
particular after a `resolve-library-id` request the next request from the
same client observes `resolveLibraryIdCalled = true`. -/
theorem mcp_same_client_key_session_persistence :
    ∀ (b1 b2 : Backend) (store : SessionStore) (tel1 tel2 : Telemetry)
      (now1 now2 : Nat) (ip : Option String) (call1 call2 : ToolCall),
      ((processMcpRequest b2 (processMcpRequest b1 store tel1 now1 ip call1).1
          tel2 now2 ip call2).2.2.observedState =
        (processMcpRequest b1 store tel1 now1 ip call1).2.2.finalState) ∧
      ((processMcpRequest b2
          (processMcpRequest b1 store tel1 now1 ip (.resolveLibraryId "left-pad")).1
          tel2 now2 ip call2).2.2.observedState.resolveLibraryIdCalled = true) := by
  intro b1 b2 store tel1 tel2 now1 now2 ip call1 call2
  constructor
  · cases call1 <;> cases call2 <;>
      simp [processMcpRequest, getSessionState, SessionStore.write]
  · cases call2 <;>
      simp [processMcpRequest, getSessionState, SessionStore.write,
        resolveLibraryIdHandler_state]

/-- `truncateHistory` always equals dropping all but the last 100 (when the
length is at most 100 the drop count is zero). -/
lemma truncateHistory_eq_drop (h : List CallRecord) :
    truncateHistory h = h.drop (h.length - 100) := by
  unfold truncateHistory
  split
  · rfl
  · next hle =>
    have h0 : h.length - 100 = 0 := by omega
    rw [h0, List.drop_zero]

/-- The length of a truncated history. -/
lemma truncateHistory_length (h : List CallRecord) :
    (truncateHistory h).length = min h.length 100 := by
  rw [truncateHistory_eq_drop, List.length_drop]
  omega

/-- Truncating, appending more and truncating again is the same as
truncating the full sequence once: truncation keeps a suffix. -/
lemma truncateHistory_append_left (h rest : List CallRecord) :
    truncateHistory (truncateHistory h ++ rest) = truncateHistory (h ++ rest) := by
  simp only [truncateHistory_eq_drop, List.length_append, List.length_drop,
    List.drop_append_eq_append_drop, List.drop_drop]
  congr 2 <;> omega

/-- The last element of a truncated history ending in `e` is `e`. -/
lemma truncateHistory_concat_getLast (h : List CallRecord) (e : CallRecord) :
    (truncateHistory (h ++ [e])).getLast? = some e := by
  rw [truncateHistory_eq_drop, List.drop_append_eq_append_drop]
  have h0 : (h ++ [e]).length - 100 - h.length = 0 := by
    simp only [List.length_append, List.length_cons, List.length_nil]
    omega
  rw [h0, List.drop_zero]
  exact List.getLast?_concat _

/-- The arguments of one `logToolCall` invocation. -/
structure LogArgs where
  now : Nat
  tool : String
  query : Option String
  libraryId : Option String
  clientIp : Option String
  success : Bool
  deriving Repr, DecidableEq

/-- The `CallRecord` a `logToolCall` invocation appends. -/
def LogArgs.record (a : LogArgs) : CallRecord :=
  { timestamp := a.now, tool := a.tool, query := a.query, libraryId := a.libraryId,
    clientIp := a.clientIp.map maskIp, success := a.success }

/-- `logToolCall` uncurried over `LogArgs`. -/
def logToolCallArgs (t : Telemetry) (a : LogArgs) : Telemetry :=
  logToolCall t a.now a.tool a.query a.libraryId a.clientIp a.success

/-- A sequence of `logToolCall` invocations, in arrival order. -/
def recordAll (t : Telemetry) (l : List LogArgs) : Telemetry :=
  l.foldl logToolCallArgs t

lemma logToolCallArgs_history (t : Telemetry) (a : LogArgs) :
    (logToolCallArgs t a).callHistory = truncateHistory (t.callHistory ++ [a.record]) := rfl

/-- After any sequence of records from a history within bounds, the stored
history is the truncation of everything ever appended. -/
lemma recordAll_history : ∀ (l : List LogArgs) (t : Telemetry),
    t.callHistory.length ≤ 100 →
    (recordAll t l).callHistory = truncateHistory (t.callHistory ++ l.map LogArgs.record)
  | [], t, ht => by
      show t.callHistory = truncateHistory (t.callHistory ++ [])
      rw [List.append_nil, truncateHistory_eq_drop]
      have h0 : t.callHistory.length - 100 = 0 := by omega
      rw [h0, List.drop_zero]
  | a :: l, t, ht => by
      show (recordAll (logToolCallArgs t a) l).callHistory = _
      rw [recordAll_history l (logToolCallArgs t a)
        (by rw [logToolCallArgs_history, truncateHistory_length]; omega)]
      rw [logToolCallArgs_history, truncateHistory_append_left, List.append_assoc]
      rfl

/-- C6: the call history never exceeds 100 entries after any sequence of
records from the initial telemetry, and after more than 100 records the
stored sequence is exactly the last 100 appended records in arrival
order. -/
theorem call_history_bounded_last100 :
    (∀ (l : List LogArgs), (recordAll Telemetry.initial l).callHistory.length ≤ 100) ∧
    (∀ (l : List LogArgs), l.length > 100 →
      (recordAll Telemetry.initial l).callHistory =
        (l.map LogArgs.record).drop (l.length - 100) ∧
      (recordAll Telemetry.initial l).callHistory.length = 100) := by
  have base : ∀ l : List LogArgs, (recordAll Telemetry.initial l).callHistory =
      truncateHistory (l.map LogArgs.record) := by
    intro l
    have h := recordAll_history l Telemetry.initial (by simp [Telemetry.initial])
    simpa [Telemetry.initial] using h
  constructor
  · intro l
    rw [base, truncateHistory_length]
    omega
  · intro l hl
    refine ⟨?_, ?_⟩
    · rw [base, truncateHistory_eq_drop, List.length_map]
    · rw [base, truncateHistory_length, List.length_map]
      omega

/-- Witness for C6: 150 identical records from the initial telemetry leave
exactly the last 100 in the history. -/
theorem call_history_bounded_witness :
    ((recordAll Telemetry.initial
        (List.replicate 150 ⟨0, "resolve-library-id", none, none, none, true⟩)).callHistory.length ≤ 100) ∧
    ((recordAll Telemetry.initial
        (List.replicate 150 ⟨0, "resolve-library-id", none, none, none, true⟩)).callHistory =
      ((List.replicate 150 (⟨0, "resolve-library-id", none, none, none, true⟩ : LogArgs)).map
          LogArgs.record).drop
        ((List.replicate 150 (⟨0, "resolve-library-id", none, none, none, true⟩ : LogArgs)).length - 100)) :=
  ⟨call_history_bounded_last100.1 _,
   (call_history_bounded_last100.2 _ (by simp)).1⟩

lemma logToolCall_total (t : Telemetry) (now : Nat) (tool : String)
    (query libraryId clientIp : Option String) (success : Bool) :
    (logToolCall t now tool query libraryId clientIp success).totalCallCount =
      t.totalCallCount + 1 := rfl

lemma logToolCall_resolve_counter (t : Telemetry) (now : Nat)
    (query libraryId clientIp : Option String) (success : Bool) :
    (logToolCall t now "resolve-library-id" query libraryId clientIp success).statsResolveLibraryId =
      t.statsResolveLibraryId + 1 := by
  unfold logToolCall
  dsimp only
  rw [if_pos rfl]

lemma logToolCall_resolve_docs_counter (t : Telemetry) (now : Nat)
    (query libraryId clientIp : Option String) (success : Bool) :
    (logToolCall t now "resolve-library-id" query libraryId clientIp success).statsGetLibraryDocs =
      t.statsGetLibraryDocs := by
  unfold logToolCall
  dsimp only
  rw [if_neg (by decide)]

lemma logToolCall_docs_counter (t : Telemetry) (now : Nat)
    (query libraryId clientIp : Option String) (success : Bool) :
    (logToolCall t now "get-library-docs" query libraryId clientIp success).statsGetLibraryDocs =
      t.statsGetLibraryDocs + 1 := by
  unfold logToolCall
  dsimp only
  rw [if_pos rfl]

lemma logToolCall_docs_resolve_counter (t : Telemetry) (now : Nat)
    (query libraryId clientIp : Option String) (success : Bool) :
    (logToolCall t now "get-library-docs" query libraryId clientIp success).statsResolveLibraryId =
      t.statsResolveLibraryId := by
  unfold logToolCall
  dsimp only
  rw [if_neg (by decide)]

lemma logToolCall_getLast (t : Telemetry) (now : Nat) (tool : String)
    (query libraryId clientIp : Option String) (success : Bool) :
    (logToolCall t now tool query libraryId clientIp success).callHistory.getLast? =
      some { timestamp := now, tool := tool, query := query, libraryId := libraryId,
             clientIp := clientIp.map maskIp, success := success } :=
  truncateHistory_concat_getLast _ _

set_option maxRecDepth 10000 in
/-- Counterexample for C9: a `get-library-docs` call rejected by the
sequencing gate (fresh session, id `"react-query"`) leaves the telemetry
exactly as it was: no CallRecord is appended and no counter is
incremented, although the call went through the workflow enforcer. -/
theorem gate_rejected_call_not_recorded :
    (getLibraryDocsHandler (fun _ _ _ => some "DOCS") SessionState.initial
        Telemetry.initial 3 "react-query" none none none).telemetry = Telemetry.initial ∧
    (getLibraryDocsHandler (fun _ _ _ => some "DOCS") SessionState.initial
        Telemetry.initial 3 "react-query" none none none).response = docsGateGuidanceText ∧
    Telemetry.initial.totalCallCount = 0 ∧
    Telemetry.initial.callHistory.length = 0 := by
  refine ⟨by decide, by decide, rfl, rfl⟩

/-- C9 (amended): every `resolve-library-id` invocation, and every
`get-library-docs` invocation admitted past the sequencing gate, has its
outcome recorded: a CallRecord of that tool is appended (it is the last
history entry) and the total and per-tool counters are incremented; a
`get-library-docs` call rejected by the gate leaves the telemetry
unchanged. -/
theorem telemetry_records_admitted_calls :
    (∀ (search : String → SearchResponse) (fmt : SearchResponse → String)
        (st : SessionState) (tel : Telemetry) (now : Nat) (name : String)
        (ip : Option String),
      (resolveLibraryIdHandler search fmt st tel now name ip).telemetry.totalCallCount ≥
          tel.totalCallCount + 1 ∧
      (resolveLibraryIdHandler search fmt st tel now name ip).telemetry.statsResolveLibraryId ≥
          tel.statsResolveLibraryId + 1 ∧
      (∃ r, (resolveLibraryIdHandler search fmt st tel now name ip).telemetry.callHistory.getLast? =
          some r ∧ r.tool = "resolve-library-id")) ∧
    (∀ (fetch : String → Int → String → Option String) (st : SessionState)
        (tel : Telemetry) (now : Nat) (id : String) (topic : Option String)
        (tokens : Option Int) (ip : Option String),
      (st.resolveLibraryIdCalled = true ∨ startsWithSlash id = true) →
      (getLibraryDocsHandler fetch st tel now id topic tokens ip).telemetry.totalCallCount ≥
          tel.totalCallCount + 1 ∧
      (getLibraryDocsHandler fetch st tel now id topic tokens ip).telemetry.statsGetLibraryDocs ≥
          tel.statsGetLibraryDocs + 1 ∧
      (∃ r, (getLibraryDocsHandler fetch st tel now id topic tokens ip).telemetry.callHistory.getLast? =
          some r ∧ r.tool = "get-library-docs")) ∧
    (∀ (fetch : String → Int → String → Option String) (st : SessionState)
        (tel : Telemetry) (now : Nat) (id : String) (topic : Option String)
        (tokens : Option Int) (ip : Option String),
      st.resolveLibraryIdCalled = false → startsWithSlash id = false →
      (getLibraryDocsHandler fetch st tel now id topic tokens ip).telemetry = tel) := by
  refine ⟨?_, ?_, ?_⟩
  · intro search fmt st tel now name ip
    unfold resolveLibraryIdHandler
    dsimp only
    split
    · refine ⟨?_, ?_, ?_⟩
      · simp [logToolCall_total]
      · simp [logToolCall_resolve_counter]
      · exact ⟨_, logToolCall_getLast _ _ _ _ _ _ _, rfl⟩
    · refine ⟨?_, ?_, ?_⟩
      · simp [logToolCall_total]
      · simp [logToolCall_resolve_counter]
      · exact ⟨_, logToolCall_getLast _ _ _ _ _ _ _, rfl⟩
  · intro fetch st tel now id topic tokens ip hadm
    have hc : (!st.resolveLibraryIdCalled && !startsWithSlash id) = false := by
      rcases hadm with h | h <;> simp [h]
    unfold getLibraryDocsHandler
    dsimp only
    rw [hc, if_neg (show ¬ (false = true) by decide)]
    split
    · refine ⟨?_, ?_, ?_⟩
      · simp [logToolCall_total]
      · simp [logToolCall_docs_counter]
      · exact ⟨_, logToolCall_getLast _ _ _ _ _ _ _, rfl⟩
    · refine ⟨?_, ?_, ?_⟩
      · simp [logToolCall_total]
      · simp [logToolCall_docs_counter]
      · exact ⟨_, logToolCall_getLast _ _ _ _ _ _ _, rfl⟩
  · intro fetch st tel now id topic tokens ip h1 h2
    unfold getLibraryDocsHandler
    simp [h1, h2]

/-- Witness for C9's amended theorem: concrete admitted calls are recorded,
a concrete rejected call is not. -/
theorem telemetry_records_witness :
    ((resolveLibraryIdHandler (fun _ => ⟨["/a/b"], none⟩) (fun _ => "") SessionState.initial
        Telemetry.initial 1 "left-pad" none).telemetry.totalCallCount ≥
      Telemetry.initial.totalCallCount + 1) ∧
    ((getLibraryDocsHandler (fun _ _ _ => some "DOCS") SessionState.initial
        Telemetry.initial 2 "/vercel/next.js" none none none).telemetry.totalCallCount ≥
      Telemetry.initial.totalCallCount + 1) ∧
    ((getLibraryDocsHandler (fun _ _ _ => some "DOCS") SessionState.initial
        Telemetry.initial 2 "react-query" none none none).telemetry = Telemetry.initial) :=
  ⟨(telemetry_records_admitted_calls.1 _ _ _ _ _ _ _).1,
   (telemetry_records_admitted_calls.2.1 _ _ _ _ _ _ _ _ (Or.inr (by decide))).1,
   telemetry_records_admitted_calls.2.2 _ _ _ _ _ _ _ _ rfl (by decide)⟩

lemma logToolCall_history (t : Telemetry) (now : Nat) (tool : String)
    (query libraryId clientIp : Option String) (success : Bool) :
    (logToolCall t now tool query libraryId clientIp success).callHistory =
      truncateHistory (t.callHistory ++
        [{ timestamp := now, tool := tool, query := query, libraryId := libraryId,
           clientIp := clientIp.map maskIp, success := success }]) := rfl

/-- C10: a tool call whose backend returns an empty/absent result appends
exactly two CallRecords — first one with `success = true`, then one with
`success = false` — and increments the total counter and the tool's
per-tool counter twice, leaving the other tool's counter unchanged. -/
theorem empty_result_double_record :
    (∀ (search : String → SearchResponse) (fmt : SearchResponse → String)
        (st : SessionState) (tel : Telemetry) (now : Nat) (name : String)
        (ip : Option String),
      (search name).results.isEmpty = true →
      (resolveLibraryIdHandler search fmt st tel now name ip).telemetry.totalCallCount =
          tel.totalCallCount + 2 ∧
      (resolveLibraryIdHandler search fmt st tel now name ip).telemetry.statsResolveLibraryId =
          tel.statsResolveLibraryId + 2 ∧
      (resolveLibraryIdHandler search fmt st tel now name ip).telemetry.statsGetLibraryDocs =
          tel.statsGetLibraryDocs ∧
      (resolveLibraryIdHandler search fmt st tel now name ip).telemetry.callHistory =
        truncateHistory (tel.callHistory ++
          [{ timestamp := now, tool := "resolve-library-id", query := some name,
             libraryId := none, clientIp := ip.map maskIp, success := true },
           { timestamp := now, tool := "resolve-library-id", query := some name,
             libraryId := none, clientIp := ip.map maskIp, success := false }])) ∧
    (∀ (fetch : String → Int → String → Option String) (st : SessionState)
        (tel : Telemetry) (now : Nat) (id : String) (topic : Option String)
        (tokens : Option Int) (ip : Option String),
      (st.resolveLibraryIdCalled = true ∨ startsWithSlash id = true) →
      (fetch id (effectiveTokens tokens) (effectiveTopic topic)).getD "" = "" →
      (getLibraryDocsHandler fetch st tel now id topic tokens ip).telemetry.totalCallCount =
          tel.totalCallCount + 2 ∧
      (getLibraryDocsHandler fetch st tel now id topic tokens ip).telemetry.statsGetLibraryDocs =
          tel.statsGetLibraryDocs + 2 ∧
      (getLibraryDocsHandler fetch st tel now id topic tokens ip).telemetry.statsResolveLibraryId =
          tel.statsResolveLibraryId ∧
      (getLibraryDocsHandler fetch st tel now id topic tokens ip).telemetry.callHistory =
        truncateHistory (tel.callHistory ++
          [{ timestamp := now, tool := "get-library-docs",
             query := some (if effectiveTopic topic = "" then "general" else effectiveTopic topic),
             libraryId := some id, clientIp := ip.map maskIp, success := true },
           { timestamp := now, tool := "get-library-docs",
             query := some (if effectiveTopic topic = "" then "general" else effectiveTopic topic),
             libraryId := some id, clientIp := ip.map maskIp, success := false }])) := by
  constructor
  · intro search fmt st tel now name ip hempty
    unfold resolveLibraryIdHandler
    dsimp only
    rw [if_pos hempty]
    refine ⟨?_, ?_, ?_, ?_⟩
    · rw [logToolCall_total, logToolCall_total]
    · rw [logToolCall_resolve_counter, logToolCall_resolve_counter]
    · rw [logToolCall_resolve_docs_counter, logToolCall_resolve_docs_counter]
    · rw [logToolCall_history, logToolCall_history, truncateHistory_append_left,
        List.append_assoc]
      rfl
  · intro fetch st tel now id topic tokens ip hadm hempty
    have hc : (!st.resolveLibraryIdCalled && !startsWithSlash id) = false := by
      rcases hadm with h | h <;> simp [h]
    unfold getLibraryDocsHandler
    dsimp only
    rw [hc, if_neg (show ¬ (false = true) by decide), if_pos hempty]
    refine ⟨?_, ?_, ?_, ?_⟩
    · rw [logToolCall_total, logToolCall_total]
    · rw [logToolCall_docs_counter, logToolCall_docs_counter]
    · rw [logToolCall_docs_resolve_counter, logToolCall_docs_resolve_counter]
    · rw [logToolCall_history, logToolCall_history, truncateHistory_append_left,
        List.append_assoc]
      rfl

/-- Witness for C10: a search with zero results and a fetch returning
nothing each bump the total counter by exactly two. -/
theorem empty_result_double_record_witness :
    ((resolveLibraryIdHandler (fun _ => ⟨[], none⟩) (fun _ => "") SessionState.initial
        Telemetry.initial 0 "left-pad" none).telemetry.totalCallCount =
      Telemetry.initial.totalCallCount + 2) ∧
    ((getLibraryDocsHandler (fun _ _ _ => none) ⟨true, false, some 0⟩
        Telemetry.initial 0 "/vercel/next.js" none none none).telemetry.totalCallCount =
      Telemetry.initial.totalCallCount + 2) :=
  ⟨(empty_result_double_record.1 (fun _ => ⟨[], none⟩) (fun _ => "")
      SessionState.initial Telemetry.initial 0 "left-pad" none rfl).1,
   (empty_result_double_record.2 (fun _ _ _ => none) ⟨true, false, some 0⟩
      Telemetry.initial 0 "/vercel/next.js" none none none (Or.inl rfl) rfl).1⟩

/-- `startServer` binds the first free port when all lower ports of the
range are in use: induction along the retry chain. -/
lemma startServer_binds_first_free : ∀ (k : Nat) (bindPort : Nat → BindResult)
    (initialPort maxAttempts port : Nat),
    port + k ≤ initialPort + maxAttempts →
    (∀ j, j < k → bindPort (port + j) = BindResult.addrInUse) →
    bindPort (port + k) = BindResult.ok →
    startServer bindPort initialPort maxAttempts port = StartOutcome.listening (port + k)
  | 0, bindPort, initialPort, maxAttempts, port, _, _, hok => by
      rw [startServer]
      simp only [Nat.add_zero] at hok
      rw [hok]
      rfl
  | k + 1, bindPort, initialPort, maxAttempts, port, hle, hbusy, hok => by
      rw [startServer]
      have h0 : bindPort port = BindResult.addrInUse := by
        have := hbusy 0 (Nat.succ_pos k)
        simpa using this
      rw [h0]
      have hlt : port < initialPort + maxAttempts := by omega
      rw [if_pos hlt]
      have ih := startServer_binds_first_free k bindPort initialPort maxAttempts (port + 1)
        (by omega) (fun j hj => by
          have := hbusy (j + 1) (by omega)
          simpa [Nat.add_assoc, Nat.add_comm 1 j] using this)
        (by
          have : port + 1 + k = port + (k + 1) := by omega
          rw [this]
          exact hok)
      rw [ih]
      have : port + 1 + k = port + (k + 1) := by omega
      rw [this]

/-- `startServer` exits when every port of the retry range is in use. -/
lemma startServer_exhausts : ∀ (k : Nat) (bindPort : Nat → BindResult)
    (initialPort maxAttempts port : Nat),
    initialPort + maxAttempts = port + k →
    (∀ j, j ≤ k → bindPort (port + j) = BindResult.addrInUse) →
    startServer bindPort initialPort maxAttempts port = StartOutcome.exitFailure
  | 0, bindPort, initialPort, maxAttempts, port, heq, hbusy => by
      rw [startServer]
      have h0 : bindPort port = BindResult.addrInUse := by simpa using hbusy 0 (Nat.le_refl 0)
      rw [h0]
      rw [if_neg (by omega)]
  | k + 1, bindPort, initialPort, maxAttempts, port, heq, hbusy => by
      rw [startServer]
      have h0 : bindPort port = BindResult.addrInUse := by simpa using hbusy 0 (Nat.zero_le _)
      rw [h0]
      rw [if_pos (by omega)]
      exact startServer_exhausts k bindPort initialPort maxAttempts (port + 1)
        (by omega) (fun j hj => by
          have := hbusy (j + 1) (by omega)
          simpa [Nat.add_assoc, Nat.add_comm 1 j] using this)

/-- C7: when binding fails with address-in-use the server retries the next
higher port, binding the first free port within the bounded range
(`initialPort` up to `initialPort + maxAttempts`); if the whole range is
in use, or a bind attempt fails for any other reason, the process exits
with a non-zero status. -/
theorem port_fallback_spec :
    (∀ (bindPort : Nat → BindResult) (initialPort maxAttempts k : Nat),
      k ≤ maxAttempts →
      (∀ j, j < k → bindPort (initialPort + j) = BindResult.addrInUse) →
      bindPort (initialPort + k) = BindResult.ok →
      startServer bindPort initialPort maxAttempts initialPort =
        StartOutcome.listening (initialPort + k)) ∧
    (∀ (bindPort : Nat → BindResult) (initialPort maxAttempts : Nat),
      (∀ j, j ≤ maxAttempts → bindPort (initialPort + j) = BindResult.addrInUse) →
      startServer bindPort initialPort maxAttempts initialPort =
        StartOutcome.exitFailure) ∧
    (∀ (bindPort : Nat → BindResult) (initialPort maxAttempts port : Nat),
      bindPort port = BindResult.otherError →
      startServer bindPort initialPort maxAttempts port =
        StartOutcome.exitFailure) := by
  refine ⟨?_, ?_, ?_⟩
  · intro bindPort initialPort maxAttempts k hk hbusy hok
    exact startServer_binds_first_free k bindPort initialPort maxAttempts initialPort
      (by omega) hbusy hok
  · intro bindPort initialPort maxAttempts hbusy
    exact startServer_exhausts maxAttempts bindPort initialPort maxAttempts initialPort
      rfl hbusy
  · intro bindPort initialPort maxAttempts port herr
    rw [startServer, herr]

/-- Witness for C7: with port 3000 occupied and 3001 free the server binds
3001; with every port of the range occupied it exits; a permission-style
error exits at once. -/
theorem port_fallback_witness :
    (startServer (fun p => if p = 3000 then BindResult.addrInUse else BindResult.ok)
        3000 10 3000 = StartOutcome.listening 3001) ∧
    (startServer (fun _ => BindResult.addrInUse) 3000 10 3000 =
        StartOutcome.exitFailure) ∧
    (startServer (fun _ => BindResult.otherError) 3000 10 3000 =
        StartOutcome.exitFailure) :=
  ⟨port_fallback_spec.1 _ 3000 10 1 (by decide)
      (fun j hj => by
        have h0 : j = 0 := by omega
        subst h0
        decide) (by decide),
   port_fallback_spec.2.1 _ 3000 10 (fun j _ => rfl),
   port_fallback_spec.2.2 _ 3000 10 3000 rfl⟩
